import Mathlib

/-!
# War (war.c): combat resolution and mission evaluation

A shallow embedding of `src/war.c`.

* A C string (`char[TAM_STRING]`) is a Lean `String`; `strcmp(a, b) == 0` is
  equality of strings and `strcpy` is assignment.
* A C `int` is a Lean `Int`.  The only arithmetic the program performs on a
  troop count or on an index is a decrement by one, which C leaves undefined at
  the least `int` and which is the subtraction of 1 everywhere else, as here.
  `reachable_bounds` shows that in every state of a game all troop counts lie
  between 1 and 5, so a game never comes near the ends of the range.
* The map (`Territorio*`) is a `List Territorio`.  Reading or writing
  `mapa[i]` outside the list is undefined behaviour in C and `none` here, so
  every function that touches the map returns an `Option`.
* `rand()` is an input: each function that calls it takes the values returned
  by the successive calls as arguments (`r1`, `r2`, non-negative).
* `scanf("%d", ...)` is an input: `faseDeAtaque` takes the two integers read.
* `printf` is recorded as a list of `Saida` events, one for each line that
  depends on the state; banners and prompts are left out.
-/

namespace War

/-- NUM_TERRITORIOS (war.c:26). -/
def NUM_TERRITORIOS : Nat := 5

/-- NUM_MISSOES (war.c:27). -/
def NUM_MISSOES : Nat := 2

/-- Territorio (war.c:32-36). -/
structure Territorio where
  nome : String
  cor : String
  tropas : Int
deriving DecidableEq, Repr

/-- The array of territories behind a `Territorio*`. -/
abbrev Mapa := List Territorio

/-- Lines written by `faseDeAtaque` and `simularAtaque`. -/
inductive Saida where
  /-- Line "Territórios inválidos!" (war.c:239). -/
  | territoriosInvalidos
  /-- Line "Você não pode atacar o mesmo território!" (war.c:244). -/
  | mesmoTerritorio
  /-- Line "Você só pode atacar com seus próprios territórios!" (war.c:249). -/
  | naoProprio
  /-- Line "Você precisa de pelo menos 2 tropas para atacar!" (war.c:254). -/
  | poucasTropas
  /-- Line "BATALHA: %s (%s) vs %s (%s)" (war.c:266). -/
  | batalha (nomeA corA nomeD corD : String)
  /-- Line "Dado do Atacante: %d" (war.c:274). -/
  | dadoAtacante (d : Int)
  /-- Line "Dado do Defensor: %d" (war.c:275). -/
  | dadoDefensor (d : Int)
  /-- Line "Atacante venceu!" (war.c:279). -/
  | atacanteVenceu
  /-- Line "Território %s foi conquistado!" (war.c:283). -/
  | conquistado (nome : String)
  /-- Line "Defensor resistiu ao ataque!" (war.c:289). -/
  | defensorResistiu
deriving DecidableEq, Repr

/-- The line is the header that `simularAtaque` prints first. -/
def Saida.ehBatalha : Saida → Bool
  | .batalha _ _ _ _ => true
  | _ => false

/-- The line is one of the four rejections of `faseDeAtaque`. -/
def Saida.ehRejeicao : Saida → Bool
  | .territoriosInvalidos => true
  | .mesmoTerritorio => true
  | .naoProprio => true
  | .poucasTropas => true
  | _ => false

/-- Read of `mapa[i]`; `none` outside the array. -/
def ler (mapa : Mapa) (i : Int) : Option Territorio :=
  if 0 ≤ i then mapa[i.toNat]? else none

/-- Write to `mapa[i]`, given as the change `f` of the element; `none` outside
the array. -/
def modificar (mapa : Mapa) (i : Int) (f : Territorio → Territorio) : Option Mapa :=
  match ler mapa i with
  | some t => some (mapa.set i.toNat (f t))
  | none => none

/-- alocarMapa (war.c:131-133): `calloc` of NUM_TERRITORIOS zeroed elements
(the allocation is taken to succeed). -/
def alocarMapa : Mapa :=
  List.replicate NUM_TERRITORIOS { nome := "", cor := "", tropas := 0 }

/-- inicializarTerritorios (war.c:138-158): fifteen writes, in the order of
the source. -/
def inicializarTerritorios (mapa : Mapa) : Option Mapa :=
  some mapa
    >>= (modificar · 0 (fun t => { t with nome := "Brasil" }))
    >>= (modificar · 0 (fun t => { t with cor := "Azul" }))
    >>= (modificar · 0 (fun t => { t with tropas := 5 }))
    >>= (modificar · 1 (fun t => { t with nome := "Argentina" }))
    >>= (modificar · 1 (fun t => { t with cor := "Verde" }))
    >>= (modificar · 1 (fun t => { t with tropas := 3 }))
    >>= (modificar · 2 (fun t => { t with nome := "Chile" }))
    >>= (modificar · 2 (fun t => { t with cor := "Vermelho" }))
    >>= (modificar · 2 (fun t => { t with tropas := 4 }))
    >>= (modificar · 3 (fun t => { t with nome := "Peru" }))
    >>= (modificar · 3 (fun t => { t with cor := "Verde" }))
    >>= (modificar · 3 (fun t => { t with tropas := 2 }))
    >>= (modificar · 4 (fun t => { t with nome := "Colombia" }))
    >>= (modificar · 4 (fun t => { t with cor := "Amarelo" }))
    >>= (modificar · 4 (fun t => { t with tropas := 3 }))

/-- simularAtaque (war.c:265-291).  `r1` and `r2` are the results of the two
calls of `rand()`. -/
def simularAtaque (mapa : Mapa) (atacante defensor : Int) (r1 r2 : Nat) :
    Option (Mapa × List Saida) := do
  let a ← ler mapa atacante
  let d ← ler mapa defensor
  let saida := [Saida.batalha a.nome a.cor d.nome d.cor]
  let dadoAtaque : Int := ((r1 : Int) % 6) + 1
  let dadoDefesa : Int := ((r2 : Int) % 6) + 1
  let saida := saida ++ [Saida.dadoAtacante dadoAtaque, Saida.dadoDefensor dadoDefesa]
  if dadoAtaque > dadoDefesa then
    let saida := saida ++ [Saida.atacanteVenceu]
    let mapa ← modificar mapa defensor (fun t => { t with tropas := t.tropas - 1 })
    let d ← ler mapa defensor
    if d.tropas = 0 then
      let saida := saida ++ [Saida.conquistado d.nome]
      let a ← ler mapa atacante
      let mapa ← modificar mapa defensor (fun t => { t with cor := a.cor })
      let mapa ← modificar mapa defensor (fun t => { t with tropas := 1 })
      let mapa ← modificar mapa atacante (fun t => { t with tropas := t.tropas - 1 })
      pure (mapa, saida)
    else
      pure (mapa, saida)
  else
    pure (mapa, saida ++ [Saida.defensorResistiu])

/-- faseDeAtaque (war.c:217-259).  `entradaAtacante` and `entradaDefensor` are
the two integers read by `scanf`, `r1` and `r2` the results of `rand()`. -/
def faseDeAtaque (mapa : Mapa) (corJogador : String)
    (entradaAtacante entradaDefensor : Int) (r1 r2 : Nat) :
    Option (Mapa × List Saida) := do
  let atacante := entradaAtacante - 1
  let defensor := entradaDefensor - 1
  if atacante < 0 ∨ atacante ≥ NUM_TERRITORIOS ∨
      defensor < 0 ∨ defensor ≥ NUM_TERRITORIOS then
    pure (mapa, [Saida.territoriosInvalidos])
  else if atacante = defensor then
    pure (mapa, [Saida.mesmoTerritorio])
  else
    let a ← ler mapa atacante
    if a.cor ≠ corJogador then
      pure (mapa, [Saida.naoProprio])
    else if a.tropas < 2 then
      pure (mapa, [Saida.poucasTropas])
    else
      simularAtaque mapa atacante defensor r1 r2

/-- sortearMissao (war.c:295-297); `r` is the result of `rand()`. -/
def sortearMissao (r : Nat) : Int := (r : Int) % NUM_MISSOES

/-- The loop of war.c:306-311 from index `i` with `n` iterations left. -/
def procurarVerde (mapa : Mapa) : Nat → Nat → Option Int
  | 0, _ => some 1
  | n + 1, i => do
    let t ← ler mapa i
    if t.cor = "Verde" then pure 0 else procurarVerde mapa n (i + 1)

/-- The loop of war.c:315-319 from index `i` with `n` iterations left;
the result is the final value of `territoriosConquistados`. -/
def contarTerritorios (mapa : Mapa) (corJogador : String) : Nat → Nat → Int → Option Int
  | 0, _, territoriosConquistados => some territoriosConquistados
  | n + 1, i, territoriosConquistados => do
    let t ← ler mapa i
    if t.cor = corJogador then
      contarTerritorios mapa corJogador n (i + 1) (territoriosConquistados + 1)
    else
      contarTerritorios mapa corJogador n (i + 1) territoriosConquistados

/-- verificarVitoria (war.c:303-324). -/
def verificarVitoria (mapa : Mapa) (missaoID : Int) (corJogador : String) : Option Int :=
  if missaoID = 0 then
    procurarVerde mapa NUM_TERRITORIOS 0
  else if missaoID = 1 then do
    let territoriosConquistados ← contarTerritorios mapa corJogador NUM_TERRITORIOS 0 0
    pure (if territoriosConquistados ≥ 3 then 1 else 0)
  else
    some 0

/-- The map at the start of a game (war.c:67, 73). -/
def mapaInicial : Mapa :=
  [ { nome := "Brasil", cor := "Azul", tropas := 5 },
    { nome := "Argentina", cor := "Verde", tropas := 3 },
    { nome := "Chile", cor := "Vermelho", tropas := 4 },
    { nome := "Peru", cor := "Verde", tropas := 2 },
    { nome := "Colombia", cor := "Amarelo", tropas := 3 } ]

/-- Value of the die for a result `r` of `rand()` (war.c:271-272). -/
def dado (r : Nat) : Int := ((r : Int) % 6) + 1

/-- The three lines every battle starts with. -/
def cabecalho (a d : Territorio) (r1 r2 : Nat) : List Saida :=
  [Saida.batalha a.nome a.cor d.nome d.cor, Saida.dadoAtacante (dado r1),
    Saida.dadoDefensor (dado r2)]

/-- Calls of `simularAtaque` one after the other on the same pair of
territories, one call for each pair of results of `rand()`. -/
def repetirAtaque (mapa : Mapa) (atacante defensor : Int) : List (Nat × Nat) → Option Mapa
  | [] => some mapa
  | (r1, r2) :: resto =>
    match simularAtaque mapa atacante defensor r1 r2 with
    | some (mapa', _) => repetirAtaque mapa' atacante defensor resto
    | none => none

/-- The two-territory map of the conquest scenario. -/
def mapaAB : Mapa :=
  [ { nome := "A", cor := "red", tropas := 1 }, { nome := "B", cor := "blue", tropas := 5 } ]

/-- The initial map after Brasil has conquered Peru and Argentina. -/
def mapaVitoria : Mapa :=
  [ { nome := "Brasil", cor := "Azul", tropas := 3 },
    { nome := "Argentina", cor := "Azul", tropas := 1 },
    { nome := "Chile", cor := "Vermelho", tropas := 4 },
    { nome := "Peru", cor := "Azul", tropas := 1 },
    { nome := "Colombia", cor := "Amarelo", tropas := 3 } ]

/-- Number of territories of the map whose owner is `cor`. -/
def territoriosDe (mapa : Mapa) (cor : String) : Nat :=
  mapa.countP (fun t => t.cor = cor)

/-- One call of `faseDeAtaque`: the two integers typed and the two results of
`rand()`. -/
abbrev Jogada := Int × Int × Nat × Nat

/-- Calls of `faseDeAtaque` one after the other, as in the game loop of `main`
(war.c:82-118) when option 1 is chosen each time; the result is the final map
and what each call printed. -/
def jogar (mapa : Mapa) (corJogador : String) : List Jogada → Option (Mapa × List (List Saida))
  | [] => some (mapa, [])
  | (ea, ed, r1, r2) :: resto =>
    match faseDeAtaque mapa corJogador ea ed r1 r2 with
    | some (mapa', saida) =>
      match jogar mapa' corJogador resto with
      | some (final, saidas) => some (final, saida :: saidas)
      | none => none
    | none => none

/-- The call passed the validation of `faseDeAtaque`: the battle took place. -/
def ataqueAceito (saida : List Saida) : Bool := saida.any Saida.ehBatalha

/-- States of the map in a game of the player "Azul": the map built by
`inicializarTerritorios` on the freshly allocated array, and every map
returned by a call of `faseDeAtaque` on such a state. -/
inductive Alcancavel : Mapa → Prop where
  | inicio (mapa : Mapa) : inicializarTerritorios alocarMapa = some mapa → Alcancavel mapa
  | ataque (mapa mapa' : Mapa) (saida : List Saida) (ea ed : Int) (r1 r2 : Nat) :
      Alcancavel mapa → faseDeAtaque mapa "Azul" ea ed r1 r2 = some (mapa', saida) →
      Alcancavel mapa'

/-- The five attacks by which Brasil conquers Peru and then Argentina, each
with dice 6 against 1. -/
def jogadasVitoria : List Jogada :=
  [(1, 4, 5, 0), (1, 4, 5, 0), (1, 2, 5, 0), (1, 2, 5, 0), (1, 2, 5, 0)]

/-- The initial map after Brasil has taken one troop from Peru. -/
def mapaAposAtaque : Mapa :=
  [ { nome := "Brasil", cor := "Azul", tropas := 5 },
    { nome := "Argentina", cor := "Verde", tropas := 3 },
    { nome := "Chile", cor := "Vermelho", tropas := 4 },
    { nome := "Peru", cor := "Verde", tropas := 1 },
    { nome := "Colombia", cor := "Amarelo", tropas := 3 } ]

/-! ## Reads and writes of the map -/

theorem ler_nonneg {mapa : Mapa} {i : Int} {t : Territorio} (h : ler mapa i = some t) :
    0 ≤ i := by
  unfold ler at h
  by_contra hc
  simp [hc] at h

theorem ler_lt_length {mapa : Mapa} {i : Int} {t : Territorio} (h : ler mapa i = some t) :
    i < mapa.length := by
  have h0 := ler_nonneg h
  unfold ler at h
  rw [if_pos h0] at h
  have := (List.getElem?_eq_some_iff.mp h).1
  omega

theorem ler_mem {mapa : Mapa} {i : Int} {t : Territorio} (h : ler mapa i = some t) :
    t ∈ mapa := by
  have h0 := ler_nonneg h
  unfold ler at h
  rw [if_pos h0] at h
  exact List.getElem?_mem h

theorem ler_natCast (mapa : Mapa) (n : Nat) : ler mapa (n : Int) = mapa[n]? := by
  simp [ler]

theorem ler_isSome {mapa : Mapa} {i : Int} (h0 : 0 ≤ i) (h1 : i < mapa.length) :
    ∃ t, ler mapa i = some t := by
  unfold ler
  rw [if_pos h0]
  have : i.toNat < mapa.length := by omega
  exact ⟨mapa[i.toNat], List.getElem?_eq_getElem this⟩

theorem ler_set_self {mapa : Mapa} {i : Int} {t : Territorio} (h : ler mapa i = some t)
    (u : Territorio) : ler (mapa.set i.toNat u) i = some u := by
  have h0 := ler_nonneg h
  have h1 := ler_lt_length h
  unfold ler
  rw [if_pos h0]
  apply List.getElem?_set_self
  omega

theorem ler_set_ne (mapa : Mapa) {i j : Int} (h0 : 0 ≤ i) (hne : j ≠ i) (u : Territorio) :
    ler (mapa.set i.toNat u) j = ler mapa j := by
  unfold ler
  by_cases hj : 0 ≤ j
  · rw [if_pos hj, if_pos hj]
    apply List.getElem?_set_ne
    omega
  · rw [if_neg hj, if_neg hj]

theorem modificar_some {mapa : Mapa} {i : Int} {t : Territorio} (h : ler mapa i = some t)
    (f : Territorio → Territorio) : modificar mapa i f = some (mapa.set i.toNat (f t)) := by
  unfold modificar
  rw [h]

/-- Every die shows a value from 1 to 6. -/
theorem dado_range (r : Nat) : 1 ≤ dado r ∧ dado r ≤ 6 := by
  unfold dado
  omega

/-! ## The three outcomes of `simularAtaque` -/

theorem simularAtaque_resiste {mapa : Mapa} {atacante defensor : Int} {a d : Territorio}
    (r1 r2 : Nat) (ha : ler mapa atacante = some a) (hd : ler mapa defensor = some d)
    (hdado : dado r1 ≤ dado r2) :
    simularAtaque mapa atacante defensor r1 r2
      = some (mapa, cabecalho a d r1 r2 ++ [Saida.defensorResistiu]) := by
  have hn : ¬ ((r1 : Int) % 6 + 1 > (r2 : Int) % 6 + 1) := by
    unfold dado at hdado; omega
  simp [simularAtaque, ha, hd, hn, cabecalho, dado]

theorem simularAtaque_vence {mapa : Mapa} {atacante defensor : Int} {a d : Territorio}
    (r1 r2 : Nat) (ha : ler mapa atacante = some a) (hd : ler mapa defensor = some d)
    (hdado : dado r2 < dado r1) (hn : d.tropas ≠ 1) :
    simularAtaque mapa atacante defensor r1 r2
      = some (mapa.set defensor.toNat { d with tropas := d.tropas - 1 },
          cabecalho a d r1 r2 ++ [Saida.atacanteVenceu]) := by
  have hw : (r1 : Int) % 6 + 1 > (r2 : Int) % 6 + 1 := by
    unfold dado at hdado; omega
  have hz : ¬ (d.tropas - 1 = 0) := by omega
  simp [simularAtaque, ha, hd, hw, cabecalho, dado, modificar_some hd,
    ler_set_self hd, hz]

theorem simularAtaque_conquista {mapa : Mapa} {atacante defensor : Int} {a d : Territorio}
    (r1 r2 : Nat) (ha : ler mapa atacante = some a) (hd : ler mapa defensor = some d)
    (hne : atacante ≠ defensor) (hdado : dado r2 < dado r1) (h1 : d.tropas = 1) :
    simularAtaque mapa atacante defensor r1 r2
      = some ((mapa.set defensor.toNat { nome := d.nome, cor := a.cor, tropas := 1 }).set
            atacante.toNat { a with tropas := a.tropas - 1 },
          cabecalho a d r1 r2 ++ [Saida.atacanteVenceu, Saida.conquistado d.nome]) := by
  have hw : (r1 : Int) % 6 + 1 > (r2 : Int) % 6 + 1 := by
    unfold dado at hdado; omega
  have h0 := ler_nonneg hd
  have e1 := ler_set_self hd { d with tropas := 0 }
  have a1 : ler (mapa.set defensor.toNat { d with tropas := 0 }) atacante = some a := by
    rw [ler_set_ne mapa h0 hne]; exact ha
  have e2 := ler_set_self e1 { nome := d.nome, cor := a.cor, tropas := 0 }
  have e3 := ler_set_self e2 { nome := d.nome, cor := a.cor, tropas := 1 }
  have a3 : ler (((mapa.set defensor.toNat { d with tropas := 0 }).set defensor.toNat
      { nome := d.nome, cor := a.cor, tropas := 0 }).set defensor.toNat
      { nome := d.nome, cor := a.cor, tropas := 1 }) atacante = some a := by
    rw [ler_set_ne _ h0 hne, ler_set_ne _ h0 hne]; exact a1
  simp [-List.set_set, simularAtaque, ha, hd, hw, cabecalho, dado, modificar_some hd, e1, h1,
    a1, modificar_some e1, modificar_some e2, modificar_some a3]
  simp [List.set_set]

theorem simularAtaque_cases {mapa : Mapa} {atacante defensor : Int} {a d : Territorio}
    (r1 r2 : Nat) (ha : ler mapa atacante = some a) (hd : ler mapa defensor = some d)
    (hne : atacante ≠ defensor) :
    simularAtaque mapa atacante defensor r1 r2
        = some (mapa, cabecalho a d r1 r2 ++ [Saida.defensorResistiu]) ∨
    simularAtaque mapa atacante defensor r1 r2
        = some (mapa.set defensor.toNat { d with tropas := d.tropas - 1 },
            cabecalho a d r1 r2 ++ [Saida.atacanteVenceu]) ∧ d.tropas ≠ 1 ∨
    simularAtaque mapa atacante defensor r1 r2
        = some ((mapa.set defensor.toNat { nome := d.nome, cor := a.cor, tropas := 1 }).set
              atacante.toNat { a with tropas := a.tropas - 1 },
            cabecalho a d r1 r2 ++ [Saida.atacanteVenceu, Saida.conquistado d.nome]) ∧
        d.tropas = 1 := by
  by_cases hdado : dado r2 < dado r1
  · by_cases h1 : d.tropas = 1
    · exact Or.inr (Or.inr ⟨simularAtaque_conquista r1 r2 ha hd hne hdado h1, h1⟩)
    · exact Or.inr (Or.inl ⟨simularAtaque_vence r1 r2 ha hd hdado h1, h1⟩)
  · exact Or.inl (simularAtaque_resiste r1 r2 ha hd (by omega))

/-- The two ways a call of `faseDeAtaque` on a whole map can go: one rejection
and the map as it was, or the call of `simularAtaque` on two distinct
territories, the first owned by the player with at least two troops. -/
theorem faseDeAtaque_cases (mapa : Mapa) (corJogador : String) (ea ed : Int) (r1 r2 : Nat)
    (hlen : mapa.length = NUM_TERRITORIOS) :
    (∃ aviso, faseDeAtaque mapa corJogador ea ed r1 r2 = some (mapa, [aviso]) ∧
        aviso.ehRejeicao = true) ∨
    ∃ a d, ler mapa (ea - 1) = some a ∧ ler mapa (ed - 1) = some d ∧ ea - 1 ≠ ed - 1 ∧
      a.cor = corJogador ∧ 2 ≤ a.tropas ∧
      faseDeAtaque mapa corJogador ea ed r1 r2 = simularAtaque mapa (ea - 1) (ed - 1) r1 r2 := by
  simp only [faseDeAtaque, pure, Option.bind_eq_bind]
  by_cases hr : ea - 1 < 0 ∨ ea - 1 ≥ (NUM_TERRITORIOS : Int) ∨
      ed - 1 < 0 ∨ ed - 1 ≥ (NUM_TERRITORIOS : Int)
  · rw [if_pos hr]
    exact Or.inl ⟨Saida.territoriosInvalidos, rfl, rfl⟩
  · rw [if_neg hr]
    by_cases he : ea - 1 = ed - 1
    · rw [if_pos he]
      exact Or.inl ⟨Saida.mesmoTerritorio, rfl, rfl⟩
    · rw [if_neg he]
      have hra : 0 ≤ ea - 1 ∧ ea - 1 < (mapa.length : Int) := by rw [hlen]; omega
      have hrd : 0 ≤ ed - 1 ∧ ed - 1 < (mapa.length : Int) := by rw [hlen]; omega
      obtain ⟨a, ha⟩ := ler_isSome hra.1 hra.2
      obtain ⟨d, hd⟩ := ler_isSome hrd.1 hrd.2
      rw [ha, Option.some_bind]
      by_cases hc : a.cor ≠ corJogador
      · rw [if_pos hc]
        exact Or.inl ⟨Saida.naoProprio, rfl, rfl⟩
      · rw [if_neg hc]
        by_cases ht : a.tropas < 2
        · rw [if_pos ht]
          exact Or.inl ⟨Saida.poucasTropas, rfl, rfl⟩
        · rw [if_neg ht]
          exact Or.inr ⟨a, d, rfl, hd, he, not_not.mp hc, by omega, rfl⟩

/-! ## Combat resolution -/

/-- C1: conquest.  When the attacker's die is higher and the defender holds
exactly one troop, `simularAtaque` returns a map in which the defender has the
attacker's colour and one troop, the attacker has one troop less, both keep
their names, and every other territory is as before. -/
theorem simularAtaque_conquest (mapa : Mapa) (atacante defensor : Int) (r1 r2 : Nat)
    (a d : Territorio) (ha : ler mapa atacante = some a) (hd : ler mapa defensor = some d)
    (hne : atacante ≠ defensor) (hdado : dado r2 < dado r1) (h1 : d.tropas = 1) :
    ∃ mapa' saida, simularAtaque mapa atacante defensor r1 r2 = some (mapa', saida) ∧
      mapa'.length = mapa.length ∧
      ler mapa' defensor = some { nome := d.nome, cor := a.cor, tropas := 1 } ∧
      ler mapa' atacante = some { nome := a.nome, cor := a.cor, tropas := a.tropas - 1 } ∧
      ∀ k, k ≠ atacante → k ≠ defensor → ler mapa' k = ler mapa k := by
  have h0 := ler_nonneg hd
  have h0a := ler_nonneg ha
  have ed := ler_set_self hd { nome := d.nome, cor := a.cor, tropas := 1 }
  have ea : ler (mapa.set defensor.toNat { nome := d.nome, cor := a.cor, tropas := 1 })
      atacante = some a := by
    rw [ler_set_ne mapa h0 hne]; exact ha
  refine ⟨_, _, simularAtaque_conquista r1 r2 ha hd hne hdado h1, ?_, ?_, ?_, ?_⟩
  · simp
  · rw [ler_set_ne _ h0a (Ne.symm hne)]; exact ed
  · exact ler_set_self ea _
  · intro k hka hkd
    rw [ler_set_ne _ h0a hka, ler_set_ne _ h0 hkd]

/-- C1 on the map [(A,red,1),(B,blue,5)] with attacker B, defender A and dice
6 against 1: A becomes blue with 1 troop and B keeps 4. -/
theorem simularAtaque_conquest_witness :
    (∃ mapa' saida, simularAtaque mapaAB 1 0 5 0 = some (mapa', saida) ∧
      mapa'.length = mapaAB.length ∧
      ler mapa' 0 = some { nome := "A", cor := "blue", tropas := 1 } ∧
      ler mapa' 1 = some { nome := "B", cor := "blue", tropas := 5 - 1 } ∧
      ∀ k, k ≠ 1 → k ≠ 0 → ler mapa' k = ler mapaAB k) ∧
    simularAtaque mapaAB 1 0 5 0 =
      some ([ { nome := "A", cor := "blue", tropas := 1 },
              { nome := "B", cor := "blue", tropas := 4 } ],
            [Saida.batalha "B" "blue" "A" "red", Saida.dadoAtacante 6, Saida.dadoDefensor 1,
              Saida.atacanteVenceu, Saida.conquistado "A"]) :=
  ⟨simularAtaque_conquest mapaAB 1 0 5 0 { nome := "B", cor := "blue", tropas := 5 }
      { nome := "A", cor := "red", tropas := 1 } (by decide) (by decide) (by decide)
      (by decide) rfl,
    by decide⟩

/-- C2: a winning roll against a defender with at least two troops.  The map
returned by `simularAtaque` is the original one except that the defender has
exactly one troop less: its name and colour, the attacker and every other
territory are as before. -/
theorem simularAtaque_win_no_conquest (mapa : Mapa) (atacante defensor : Int) (r1 r2 : Nat)
    (a d : Territorio) (ha : ler mapa atacante = some a) (hd : ler mapa defensor = some d)
    (hne : atacante ≠ defensor) (hdado : dado r2 < dado r1) (h2 : 0 < d.tropas - 1) :
    ∃ mapa' saida, simularAtaque mapa atacante defensor r1 r2 = some (mapa', saida) ∧
      mapa'.length = mapa.length ∧
      ler mapa' defensor = some { nome := d.nome, cor := d.cor, tropas := d.tropas - 1 } ∧
      ler mapa' atacante = some a ∧
      ∀ k, k ≠ defensor → ler mapa' k = ler mapa k := by
  have h0 := ler_nonneg hd
  refine ⟨_, _, simularAtaque_vence r1 r2 ha hd hdado (by omega), ?_, ?_, ?_, ?_⟩
  · simp
  · exact ler_set_self hd _
  · rw [ler_set_ne mapa h0 hne]; exact ha
  · intro k hkd
    rw [ler_set_ne mapa h0 hkd]

/-- C2 on the initial map: Brasil attacks Argentina (3 troops) with dice 6
against 1. -/
theorem simularAtaque_win_no_conquest_witness :
    ∃ mapa' saida, simularAtaque mapaInicial 0 1 5 0 = some (mapa', saida) ∧
      mapa'.length = mapaInicial.length ∧
      ler mapa' 1 = some { nome := "Argentina", cor := "Verde", tropas := 3 - 1 } ∧
      ler mapa' 0 = some { nome := "Brasil", cor := "Azul", tropas := 5 } ∧
      ∀ k, k ≠ 1 → ler mapa' k = ler mapaInicial k :=
  simularAtaque_win_no_conquest mapaInicial 0 1 5 0 { nome := "Brasil", cor := "Azul", tropas := 5 }
    { nome := "Argentina", cor := "Verde", tropas := 3 } (by decide) (by decide) (by decide)
    (by decide) (by decide)

/-- C3: a roll that the attacker does not win (ties included) changes nothing,
however often it is repeated: any number of calls of `simularAtaque` on
in-range territories, each with the attacker's die at most the defender's,
returns the initial map, so the defender's troop count is the initial one. -/
theorem repetirAtaque_no_win (mapa : Mapa) (atacante defensor : Int) (a d : Territorio)
    (ha : ler mapa atacante = some a) (hd : ler mapa defensor = some d)
    (rolagens : List (Nat × Nat)) (hdado : ∀ p ∈ rolagens, dado p.1 ≤ dado p.2) :
    repetirAtaque mapa atacante defensor rolagens = some mapa ∧
      (∀ p ∈ rolagens, (simularAtaque mapa atacante defensor p.1 p.2).map Prod.fst = some mapa) := by
  constructor
  · induction rolagens with
    | nil => rfl
    | cons p resto ih =>
      obtain ⟨r1, r2⟩ := p
      have hp : dado r1 ≤ dado r2 := hdado (r1, r2) (List.mem_cons_self _ _)
      simp only [repetirAtaque, simularAtaque_resiste r1 r2 ha hd hp]
      exact ih (fun q hq => hdado q (List.mem_cons_of_mem _ hq))
  · intro p hp
    rw [simularAtaque_resiste p.1 p.2 ha hd (hdado p hp)]
    rfl

/-- C3 on the initial map: Brasil attacks Peru three times, with dice 1 against
6, 3 against 3 and 2 against 5. -/
theorem repetirAtaque_no_win_witness :
    repetirAtaque mapaInicial 0 3 [(0, 5), (2, 2), (1, 4)] = some mapaInicial ∧
      (∀ p ∈ [((0 : Nat), (5 : Nat)), (2, 2), (1, 4)],
        (simularAtaque mapaInicial 0 3 p.1 p.2).map Prod.fst = some mapaInicial) :=
  repetirAtaque_no_win mapaInicial 0 3 { nome := "Brasil", cor := "Azul", tropas := 5 }
    { nome := "Peru", cor := "Verde", tropas := 2 } (by decide) (by decide)
    [(0, 5), (2, 2), (1, 4)] (by decide)

/-- C7: `faseDeAtaque` rejects an invalid attack.  When, after the conversion
to 0-based indices, an index is outside 0..NUM_TERRITORIOS-1, or the two are
equal, or the attacking territory is not owned by the player, or it has fewer
than 2 troops, the call prints one rejection, does not reach `simularAtaque`
(no battle header is printed) and returns the map it was given, whatever the
results of `rand()`. -/
theorem faseDeAtaque_rejects (mapa : Mapa) (corJogador : String) (ea ed : Int) (r1 r2 : Nat)
    (h : (ea - 1 < 0 ∨ ea - 1 ≥ (NUM_TERRITORIOS : Int) ∨
            ed - 1 < 0 ∨ ed - 1 ≥ (NUM_TERRITORIOS : Int)) ∨
          ea - 1 = ed - 1 ∨
          ∃ a, ler mapa (ea - 1) = some a ∧ (a.cor ≠ corJogador ∨ a.tropas < 2)) :
    ∃ aviso, faseDeAtaque mapa corJogador ea ed r1 r2 = some (mapa, [aviso]) ∧
      aviso.ehRejeicao = true ∧ aviso.ehBatalha = false := by
  simp only [faseDeAtaque, pure, Option.bind_eq_bind]
  by_cases hr : ea - 1 < 0 ∨ ea - 1 ≥ (NUM_TERRITORIOS : Int) ∨
      ed - 1 < 0 ∨ ed - 1 ≥ (NUM_TERRITORIOS : Int)
  · rw [if_pos hr]
    exact ⟨Saida.territoriosInvalidos, rfl, rfl, rfl⟩
  · rw [if_neg hr]
    by_cases he : ea - 1 = ed - 1
    · rw [if_pos he]
      exact ⟨Saida.mesmoTerritorio, rfl, rfl, rfl⟩
    · rw [if_neg he]
      rcases h with h | h | ⟨a, ha, h⟩
      · exact absurd h hr
      · exact absurd h he
      · rw [ha, Option.some_bind]
        by_cases hc : a.cor ≠ corJogador
        · rw [if_pos hc]
          exact ⟨Saida.naoProprio, rfl, rfl, rfl⟩
        · rw [if_neg hc]
          have ht : a.tropas < 2 := by
            rcases h with h | h
            · exact absurd h hc
            · exact h
          rw [if_pos ht]
          exact ⟨Saida.poucasTropas, rfl, rfl, rfl⟩

/-- C7 on the initial map: the player "Azul" enters 2 (Argentina, owned by
"Verde") as the attacker and 1 as the defender. -/
theorem faseDeAtaque_rejects_witness :
    ∃ aviso, faseDeAtaque mapaInicial "Azul" 2 1 5 0 = some (mapaInicial, [aviso]) ∧
      aviso.ehRejeicao = true ∧ aviso.ehBatalha = false :=
  faseDeAtaque_rejects mapaInicial "Azul" 2 1 5 0
    (Or.inr (Or.inr ⟨{ nome := "Argentina", cor := "Verde", tropas := 3 }, by decide,
      Or.inl (by decide)⟩))

/-- The shape of the map after a call of `faseDeAtaque` on a whole map: the
call returns, and the map is the one given, or the defender has lost a troop,
or the defender was conquered. -/
theorem faseDeAtaque_step (mapa : Mapa) (corJogador : String) (ea ed : Int) (r1 r2 : Nat)
    (hlen : mapa.length = NUM_TERRITORIOS) :
    ∃ mapa' saida, faseDeAtaque mapa corJogador ea ed r1 r2 = some (mapa', saida) ∧
      (mapa' = mapa ∨
        ∃ a d, ler mapa (ea - 1) = some a ∧ ler mapa (ed - 1) = some d ∧ ea - 1 ≠ ed - 1 ∧
          a.cor = corJogador ∧ 2 ≤ a.tropas ∧
          (mapa' = mapa.set (ed - 1).toNat { d with tropas := d.tropas - 1 } ∧ d.tropas ≠ 1 ∨
            mapa' = (mapa.set (ed - 1).toNat { nome := d.nome, cor := a.cor, tropas := 1 }).set
              (ea - 1).toNat { a with tropas := a.tropas - 1 } ∧ d.tropas = 1)) := by
  rcases faseDeAtaque_cases mapa corJogador ea ed r1 r2 hlen with
    ⟨aviso, h, _⟩ | ⟨a, d, ha, hd, hne, hc, ht, h⟩
  · exact ⟨mapa, [aviso], h, Or.inl rfl⟩
  · rw [h]
    rcases simularAtaque_cases r1 r2 ha hd hne with h' | ⟨h', hn⟩ | ⟨h', h1⟩
    · exact ⟨_, _, h', Or.inl rfl⟩
    · exact ⟨_, _, h', Or.inr ⟨a, d, ha, hd, hne, hc, ht, Or.inl ⟨rfl, hn⟩⟩⟩
    · exact ⟨_, _, h', Or.inr ⟨a, d, ha, hd, hne, hc, ht, Or.inr ⟨rfl, h1⟩⟩⟩

/-- The invariant of the game: the map is whole and every troop count lies
between 1 and 5. -/
theorem faseDeAtaque_bounds {mapa mapa' : Mapa} {corJogador : String} {ea ed : Int}
    {r1 r2 : Nat} {saida : List Saida}
    (h : faseDeAtaque mapa corJogador ea ed r1 r2 = some (mapa', saida))
    (hlen : mapa.length = NUM_TERRITORIOS) (hinv : ∀ t ∈ mapa, 1 ≤ t.tropas ∧ t.tropas ≤ 5) :
    mapa'.length = NUM_TERRITORIOS ∧ ∀ t ∈ mapa', 1 ≤ t.tropas ∧ t.tropas ≤ 5 := by
  obtain ⟨m, s, hm, hshape⟩ := faseDeAtaque_step mapa corJogador ea ed r1 r2 hlen
  rw [h] at hm
  injection hm with hm
  injection hm with hm _
  subst hm
  rcases hshape with rfl | ⟨a, d, ha, hd, _, _, ht, ⟨rfl, hn⟩ | ⟨rfl, _⟩⟩
  · exact ⟨hlen, hinv⟩
  · have hdb := hinv d (ler_mem hd)
    refine ⟨by simpa using hlen, fun t htm => ?_⟩
    rcases List.mem_or_eq_of_mem_set htm with hmem | rfl
    · exact hinv t hmem
    · constructor <;> simp only <;> omega
  · have hab := hinv a (ler_mem ha)
    refine ⟨by simpa using hlen, fun t htm => ?_⟩
    rcases List.mem_or_eq_of_mem_set htm with hmem | rfl
    · rcases List.mem_or_eq_of_mem_set hmem with hmem' | rfl
      · exact hinv t hmem'
      · constructor <;> simp only <;> omega
    · constructor <;> simp only <;> omega

theorem inicializarTerritorios_alocarMapa :
    inicializarTerritorios alocarMapa = some mapaInicial := by
  decide

/-- In every state of a game the map has NUM_TERRITORIOS territories and
every troop count lies between 1 and 5: no `int` overflows. -/
theorem reachable_bounds {mapa : Mapa} (h : Alcancavel mapa) :
    mapa.length = NUM_TERRITORIOS ∧ ∀ t ∈ mapa, 1 ≤ t.tropas ∧ t.tropas ≤ 5 := by
  induction h with
  | inicio m hm =>
    rw [inicializarTerritorios_alocarMapa] at hm
    injection hm with hm
    subst hm
    decide
  | ataque m m' s ea ed r1 r2 _ hstep ih => exact faseDeAtaque_bounds hstep ih.1 ih.2

/-- Owners after a call of `faseDeAtaque` on a whole map: the map keeps its
length, and each territory keeps its owner or gets the player as its owner. -/
theorem faseDeAtaque_owner {mapa mapa' : Mapa} {corJogador : String} {ea ed : Int}
    {r1 r2 : Nat} {saida : List Saida}
    (h : faseDeAtaque mapa corJogador ea ed r1 r2 = some (mapa', saida))
    (hlen : mapa.length = NUM_TERRITORIOS) :
    mapa'.length = mapa.length ∧
      ∀ k t, ler mapa k = some t →
        ∃ t', ler mapa' k = some t' ∧ (t'.cor = t.cor ∨ t'.cor = corJogador) := by
  obtain ⟨m, s, hm, hshape⟩ := faseDeAtaque_step mapa corJogador ea ed r1 r2 hlen
  rw [h] at hm
  injection hm with hm
  injection hm with hm _
  subst hm
  rcases hshape with rfl | ⟨a, d, ha, hd, hne, hc, _, ⟨rfl, _⟩ | ⟨rfl, _⟩⟩
  · exact ⟨rfl, fun k t hk => ⟨t, hk, Or.inl rfl⟩⟩
  · refine ⟨by simp, fun k t hk => ?_⟩
    by_cases hkd : k = ed - 1
    · subst hkd
      rw [hd] at hk
      injection hk with hk
      subst hk
      exact ⟨_, ler_set_self hd _, Or.inl rfl⟩
    · exact ⟨t, by rw [ler_set_ne mapa (ler_nonneg hd) hkd]; exact hk, Or.inl rfl⟩
  · have h0d := ler_nonneg hd
    have h0a := ler_nonneg ha
    have ea1 : ler (mapa.set (ed - 1).toNat { nome := d.nome, cor := a.cor, tropas := 1 })
        (ea - 1) = some a := by
      rw [ler_set_ne mapa h0d hne]; exact ha
    refine ⟨by simp, fun k t hk => ?_⟩
    by_cases hka : k = ea - 1
    · subst hka
      rw [ha] at hk
      injection hk with hk
      subst hk
      exact ⟨_, ler_set_self ea1 _, Or.inl rfl⟩
    · by_cases hkd : k = ed - 1
      · subst hkd
        refine ⟨{ nome := d.nome, cor := a.cor, tropas := 1 }, ?_, Or.inr hc⟩
        rw [ler_set_ne _ h0a hka]
        exact ler_set_self hd _
      · refine ⟨t, ?_, Or.inl rfl⟩
        rw [ler_set_ne _ h0a hka, ler_set_ne _ h0d hkd]
        exact hk

theorem countP_le_of_pointwise (p : Territorio → Bool) :
    ∀ (l l' : Mapa), l.length = l'.length →
      (∀ (n : Nat) (t t' : Territorio), l[n]? = some t → l'[n]? = some t' →
        p t = true → p t' = true) →
      l.countP p ≤ l'.countP p := by
  intro l
  induction l with
  | nil => intro l' _ _; simp
  | cons x xs ih =>
    intro l' hlen hp
    cases l' with
    | nil => simp at hlen
    | cons y ys =>
      have htail := ih ys (by simpa using hlen)
        (fun n t t' h1 h2 => hp (n + 1) t t' (by simpa using h1) (by simpa using h2))
      have hhead := hp 0 x y (by simp) (by simp)
      rw [List.countP_cons, List.countP_cons]
      by_cases hx : p x = true
      · rw [if_pos hx, if_pos (hhead hx)]; omega
      · rw [if_neg hx]
        by_cases hy : p y = true
        · rw [if_pos hy]; omega
        · rw [if_neg hy]; omega

/-! ## Mission evaluation -/

theorem ler_drop_cons {mapa : Mapa} {i : Nat} (h : i < mapa.length) :
    ∃ t, ler mapa (i : Int) = some t ∧ mapa.drop i = t :: mapa.drop (i + 1) := by
  refine ⟨mapa[i], ?_, ?_⟩
  · rw [ler_natCast]; exact List.getElem?_eq_getElem h
  · exact List.drop_eq_getElem_cons h

theorem procurarVerde_eq (mapa : Mapa) (n i : Nat) (h : i + n ≤ mapa.length) :
    procurarVerde mapa n i
      = some (if ∃ t ∈ (mapa.drop i).take n, t.cor = "Verde" then 0 else 1) := by
  induction n generalizing i with
  | zero => simp [procurarVerde]
  | succ n ih =>
    obtain ⟨t, ht, hdrop⟩ := ler_drop_cons (show i < mapa.length by omega)
    have hrec := ih (i + 1) (by omega)
    by_cases hv : t.cor = "Verde"
    · simp [procurarVerde, ht, hdrop, hv]
    · simp only [procurarVerde, ht, hdrop, hv, Option.bind_eq_bind, Option.some_bind,
        if_false, hrec, List.take_succ_cons]
      simp [hv]

theorem contarTerritorios_eq (mapa : Mapa) (corJogador : String) (n i : Nat) (acc : Int)
    (h : i + n ≤ mapa.length) :
    contarTerritorios mapa corJogador n i acc
      = some (acc + (((mapa.drop i).take n).countP (fun t => t.cor = corJogador) : Nat)) := by
  induction n generalizing i acc with
  | zero => simp [contarTerritorios]
  | succ n ih =>
    obtain ⟨t, ht, hdrop⟩ := ler_drop_cons (show i < mapa.length by omega)
    by_cases hv : t.cor = corJogador
    · have hrec := ih (i + 1) (acc + 1) (by omega)
      simp only [contarTerritorios, ht, hdrop, hv, Option.bind_eq_bind, Option.some_bind,
        if_true, hrec, List.take_succ_cons]
      simp [List.countP_cons, hv]
      omega
    · have hrec := ih (i + 1) acc (by omega)
      simp only [contarTerritorios, ht, hdrop, hv, Option.bind_eq_bind, Option.some_bind,
        if_false, hrec, List.take_succ_cons]
      simp [List.countP_cons, hv]

theorem verificarVitoria_zero (mapa : Mapa) (corJogador : String)
    (hlen : mapa.length = NUM_TERRITORIOS) :
    verificarVitoria mapa 0 corJogador
      = some (if ∃ t ∈ mapa, t.cor = "Verde" then 0 else 1) := by
  have h := procurarVerde_eq mapa NUM_TERRITORIOS 0 (by omega)
  rw [List.drop_zero, ← hlen, List.take_length] at h
  simp only [verificarVitoria, if_true]
  rw [← hlen]; exact h

theorem verificarVitoria_one (mapa : Mapa) (corJogador : String)
    (hlen : mapa.length = NUM_TERRITORIOS) :
    verificarVitoria mapa 1 corJogador
      = some (if 3 ≤ territoriosDe mapa corJogador then 1 else 0) := by
  unfold territoriosDe
  have h := contarTerritorios_eq mapa corJogador NUM_TERRITORIOS 0 0 (by omega)
  rw [List.drop_zero, ← hlen, List.take_length] at h
  have h10 : ¬ ((1 : Int) = 0) := by decide
  simp only [verificarVitoria, h10, if_false, if_true]
  rw [← hlen, h]
  simp

theorem semVerde_iff (mapa : Mapa) (corJogador : String)
    (hlen : mapa.length = NUM_TERRITORIOS) :
    verificarVitoria mapa 0 corJogador = some 1 ↔ ∀ t ∈ mapa, t.cor ≠ "Verde" := by
  rw [verificarVitoria_zero mapa corJogador hlen]
  by_cases h : ∃ t ∈ mapa, t.cor = "Verde"
  · rw [if_pos h]
    constructor
    · intro hc; cases hc
    · intro hall
      obtain ⟨t, ht, hv⟩ := h
      exact absurd hv (hall t ht)
  · rw [if_neg h]
    constructor
    · intro _ t ht hv
      exact h ⟨t, ht, hv⟩
    · intro _; rfl

/-- C4: mission 0 (destroy the army "Verde").  On a map of NUM_TERRITORIOS
territories `verificarVitoria` returns 1 exactly when no territory has the
owner "Verde" and 0 exactly when some territory has it; the player tag plays
no part in the result. -/
theorem verificarVitoria_eliminate (mapa : Mapa) (corJogador : String)
    (hlen : mapa.length = NUM_TERRITORIOS) :
    (verificarVitoria mapa 0 corJogador = some 1 ↔ ∀ t ∈ mapa, t.cor ≠ "Verde") ∧
    (verificarVitoria mapa 0 corJogador = some 0 ↔ ∃ t ∈ mapa, t.cor = "Verde") ∧
    (∀ outra, verificarVitoria mapa 0 outra = verificarVitoria mapa 0 corJogador) := by
  refine ⟨semVerde_iff mapa corJogador hlen, ?_, ?_⟩
  · rw [verificarVitoria_zero mapa corJogador hlen]
    by_cases h : ∃ t ∈ mapa, t.cor = "Verde"
    · rw [if_pos h]
      exact ⟨fun _ => h, fun _ => rfl⟩
    · rw [if_neg h]
      constructor
      · intro hc; cases hc
      · intro h'; exact absurd h' h
  · intro outra
    rw [verificarVitoria_zero mapa corJogador hlen, verificarVitoria_zero mapa outra hlen]

/-- C4 on a map where "Verde" does not appear: the mission is complete. -/
theorem verificarVitoria_eliminate_witness :
    ((verificarVitoria mapaVitoria 0 "Azul" = some 1 ↔ ∀ t ∈ mapaVitoria, t.cor ≠ "Verde") ∧
     (verificarVitoria mapaVitoria 0 "Azul" = some 0 ↔ ∃ t ∈ mapaVitoria, t.cor = "Verde") ∧
     (∀ outra, verificarVitoria mapaVitoria 0 outra = verificarVitoria mapaVitoria 0 "Azul")) ∧
    verificarVitoria mapaVitoria 0 "Azul" = some 1 :=
  ⟨verificarVitoria_eliminate mapaVitoria "Azul" rfl, by decide⟩

/-- C5: mission 1 (conquer 3 territories).  On a map of NUM_TERRITORIOS
territories `verificarVitoria` returns 1 exactly when at least 3 territories
have the player tag as owner, and 0 otherwise: 0 for two territories, 1 for
three.  Every territory with that owner counts, however it came to have it. -/
theorem verificarVitoria_conquer (mapa : Mapa) (corJogador : String)
    (hlen : mapa.length = NUM_TERRITORIOS) :
    (verificarVitoria mapa 1 corJogador = some 1 ↔ 3 ≤ territoriosDe mapa corJogador) ∧
    (verificarVitoria mapa 1 corJogador = some 0 ↔ territoriosDe mapa corJogador < 3) ∧
    (territoriosDe mapa corJogador = 2 → verificarVitoria mapa 1 corJogador = some 0) ∧
    (territoriosDe mapa corJogador = 3 → verificarVitoria mapa 1 corJogador = some 1) := by
  rw [verificarVitoria_one mapa corJogador hlen]
  by_cases h : 3 ≤ territoriosDe mapa corJogador
  · rw [if_pos h]
    refine ⟨⟨fun _ => h, fun _ => rfl⟩, ⟨fun hc => ?_, fun h' => ?_⟩, fun h2 => ?_, fun _ => rfl⟩
    · cases hc
    · omega
    · omega
  · rw [if_neg h]
    refine ⟨⟨fun hc => ?_, fun h' => absurd h' h⟩, ⟨fun _ => by omega, fun _ => rfl⟩,
      fun _ => rfl, fun h3 => ?_⟩
    · cases hc
    · omega

/-- C5 on a map where "Azul" owns three territories, one of them from the
start: the mission is complete. -/
theorem verificarVitoria_conquer_witness :
    ((verificarVitoria mapaVitoria 1 "Azul" = some 1 ↔ 3 ≤ territoriosDe mapaVitoria "Azul") ∧
     (verificarVitoria mapaVitoria 1 "Azul" = some 0 ↔ territoriosDe mapaVitoria "Azul" < 3) ∧
     (territoriosDe mapaVitoria "Azul" = 2 → verificarVitoria mapaVitoria 1 "Azul" = some 0) ∧
     (territoriosDe mapaVitoria "Azul" = 3 → verificarVitoria mapaVitoria 1 "Azul" = some 1)) ∧
    territoriosDe mapaVitoria "Azul" = 3 ∧ verificarVitoria mapaVitoria 1 "Azul" = some 1 :=
  ⟨verificarVitoria_conquer mapaVitoria "Azul" rfl, by decide, by decide⟩

/-! ## The game -/

/-- C8: troop-count invariant.  In every state reached from the map built by
`inicializarTerritorios` through calls of `faseDeAtaque` for the player "Azul",
with any integers typed and any results of `rand()`, every troop count is at
least 0 and none is 0; and from such a state every further call returns, again
in such a state. -/
theorem troop_count_invariant (mapa : Mapa) (h : Alcancavel mapa) :
    (∀ t ∈ mapa, 0 ≤ t.tropas ∧ t.tropas ≠ 0 ∧ 1 ≤ t.tropas) ∧
      ∀ (ea ed : Int) (r1 r2 : Nat), ∃ mapa' saida,
        faseDeAtaque mapa "Azul" ea ed r1 r2 = some (mapa', saida) ∧ Alcancavel mapa' := by
  obtain ⟨hlen, hb⟩ := reachable_bounds h
  constructor
  · intro t ht
    have := hb t ht
    omega
  · intro ea ed r1 r2
    obtain ⟨m, s, hm, _⟩ := faseDeAtaque_step mapa "Azul" ea ed r1 r2 hlen
    exact ⟨m, s, hm, Alcancavel.ataque mapa m s ea ed r1 r2 h hm⟩

/-- C8 on the state reached when Brasil attacks Peru once with dice 6
against 1. -/
theorem troop_count_invariant_witness :
    Alcancavel mapaAposAtaque ∧
    ((∀ t ∈ mapaAposAtaque, 0 ≤ t.tropas ∧ t.tropas ≠ 0 ∧ 1 ≤ t.tropas) ∧
      ∀ (ea ed : Int) (r1 r2 : Nat), ∃ mapa' saida,
        faseDeAtaque mapaAposAtaque "Azul" ea ed r1 r2 = some (mapa', saida) ∧
          Alcancavel mapa') :=
  have hreach : Alcancavel mapaAposAtaque :=
    Alcancavel.ataque mapaInicial mapaAposAtaque
      [Saida.batalha "Brasil" "Azul" "Peru" "Verde", Saida.dadoAtacante 6,
        Saida.dadoDefensor 1, Saida.atacanteVenceu] 1 4 5 0
      (Alcancavel.inicio mapaInicial (by decide)) (by decide)
  ⟨hreach, troop_count_invariant mapaAposAtaque hreach⟩

/-- C9: both missions are unmet at the start and can be won.  On the map built
by `inicializarTerritorios`, `verificarVitoria` returns 0 for mission 0 and for
mission 1 with the player "Azul"; and for each of the two missions there is a
sequence of calls of `faseDeAtaque`, every one of them passing the validation,
after which `verificarVitoria` returns 1. -/
theorem missions_unmet_and_winnable :
    inicializarTerritorios alocarMapa = some mapaInicial ∧
    verificarVitoria mapaInicial 0 "Azul" = some 0 ∧
    verificarVitoria mapaInicial 1 "Azul" = some 0 ∧
    (∃ jogadas final saidas, jogar mapaInicial "Azul" jogadas = some (final, saidas) ∧
      (∀ saida ∈ saidas, ataqueAceito saida = true) ∧
      verificarVitoria final 0 "Azul" = some 1) ∧
    (∃ jogadas final saidas, jogar mapaInicial "Azul" jogadas = some (final, saidas) ∧
      (∀ saida ∈ saidas, ataqueAceito saida = true) ∧
      verificarVitoria final 1 "Azul" = some 1) := by
  have hjogo : ∃ saidas, jogar mapaInicial "Azul" jogadasVitoria = some (mapaVitoria, saidas) ∧
      (∀ saida ∈ saidas, ataqueAceito saida = true) := by
    refine ⟨_, rfl, ?_⟩
    decide
  obtain ⟨saidas, hj, hac⟩ := hjogo
  refine ⟨by decide, by decide, by decide, ?_, ?_⟩
  · exact ⟨jogadasVitoria, mapaVitoria, saidas, hj, hac, by decide⟩
  · exact ⟨jogadasVitoria, mapaVitoria, saidas, hj, hac, by decide⟩

/-- C10: ownership only moves to the player.  After a call of `faseDeAtaque`
for the player "Azul" on a map of NUM_TERRITORIOS territories, whatever the
integers typed and the results of `rand()`, every territory that was "Azul" is
still "Azul" and every territory whose owner changed is "Azul"; and a mission
(0 or 1) for which `verificarVitoria` returned 1 before the call still has the
result 1 after it. -/
theorem ownership_moves_to_player (mapa : Mapa) (ea ed : Int) (r1 r2 : Nat)
    (hlen : mapa.length = NUM_TERRITORIOS) :
    ∃ mapa' saida, faseDeAtaque mapa "Azul" ea ed r1 r2 = some (mapa', saida) ∧
      mapa'.length = mapa.length ∧
      (∀ k t, ler mapa k = some t → ∃ t', ler mapa' k = some t' ∧
        (t.cor = "Azul" → t'.cor = "Azul") ∧ (t'.cor ≠ t.cor → t'.cor = "Azul")) ∧
      (verificarVitoria mapa 0 "Azul" = some 1 → verificarVitoria mapa' 0 "Azul" = some 1) ∧
      (verificarVitoria mapa 1 "Azul" = some 1 → verificarVitoria mapa' 1 "Azul" = some 1) := by
  obtain ⟨m, s, hm, _⟩ := faseDeAtaque_step mapa "Azul" ea ed r1 r2 hlen
  obtain ⟨hl, hown⟩ := faseDeAtaque_owner hm hlen
  have hlen' : m.length = NUM_TERRITORIOS := by rw [hl]; exact hlen
  -- the same fact on list positions
  have hpos : ∀ (n : Nat) (t t' : Territorio), mapa[n]? = some t → m[n]? = some t' →
      (t'.cor = t.cor ∨ t'.cor = "Azul") := by
    intro n t t' h1 h2
    obtain ⟨u, hu, hcor⟩ := hown (n : Int) t (by rw [ler_natCast]; exact h1)
    rw [ler_natCast, h2] at hu
    injection hu with hu
    subst hu
    exact hcor
  refine ⟨m, s, hm, hl, ?_, ?_, ?_⟩
  · intro k t hk
    obtain ⟨t', ht', hcor⟩ := hown k t hk
    refine ⟨t', ht', fun hazul => ?_, fun hdiff => ?_⟩
    · rcases hcor with hc | hc
      · rw [hc]; exact hazul
      · exact hc
    · rcases hcor with hc | hc
      · exact absurd hc hdiff
      · exact hc
  · intro h0
    have hno := (semVerde_iff mapa "Azul" hlen).mp h0
    apply ((semVerde_iff m "Azul" hlen')).mpr
    intro t' ht'
    obtain ⟨n, hn⟩ := List.mem_iff_getElem?.mp ht'
    have hlt : n < mapa.length := by
      have := (List.getElem?_eq_some_iff.mp hn).1
      omega
    have hcor := hpos n mapa[n] t' (List.getElem?_eq_getElem hlt) hn
    have hv := hno mapa[n] (List.getElem_mem hlt)
    rcases hcor with hc | hc
    · rw [hc]; exact hv
    · rw [hc]; decide
  · intro h1
    rw [verificarVitoria_one mapa "Azul" hlen] at h1
    rw [verificarVitoria_one m "Azul" hlen']
    have hle : territoriosDe mapa "Azul" ≤ territoriosDe m "Azul" := by
      unfold territoriosDe
      apply countP_le_of_pointwise _ mapa m hl.symm
      intro n t t' hn hn' hp
      have hcor := hpos n t t' hn hn'
      simp only [decide_eq_true_eq] at hp ⊢
      rcases hcor with hc | hc
      · rw [hc]; exact hp
      · exact hc
    by_cases h3 : 3 ≤ territoriosDe mapa "Azul"
    · rw [if_pos (by omega)]
    · rw [if_neg h3] at h1
      cases h1

/-- C10 on the initial map after Peru has lost one troop: Brasil attacks Peru
with dice 6 against 1 and conquers it. -/
theorem ownership_moves_to_player_witness :
    ∃ mapa' saida, faseDeAtaque mapaAposAtaque "Azul" 1 4 5 0 = some (mapa', saida) ∧
      mapa'.length = mapaAposAtaque.length ∧
      (∀ k t, ler mapaAposAtaque k = some t → ∃ t', ler mapa' k = some t' ∧
        (t.cor = "Azul" → t'.cor = "Azul") ∧ (t'.cor ≠ t.cor → t'.cor = "Azul")) ∧
      (verificarVitoria mapaAposAtaque 0 "Azul" = some 1 →
        verificarVitoria mapa' 0 "Azul" = some 1) ∧
      (verificarVitoria mapaAposAtaque 1 "Azul" = some 1 →
        verificarVitoria mapa' 1 "Azul" = some 1) :=
  ownership_moves_to_player mapaAposAtaque 1 4 5 0 rfl

end War
